import Mathlib

/-!
Verification of the `ui-composer` composition gateway
(`src/SSR-catalog-example/ui-composer/src/app.js`).

The embedding models the data flow of `app.js`: the process-wide cached
state (`MFElist`, `catalogTemplate`), the streaming response delivery
routine `responseStream`, the fastify route table together with its
error handler and not-found handler, and the startup sequencer `start`.
Modules the gateway requires but whose sources are not part of the
repository snapshot (`./config`, `./utils/mfe-loader`,
`./utils/html-transformer`, `./templates/staticPages`) are modelled from
the specification, as indicated in their doc comments.
-/

/-- One micro-frontend entry of the registry, per the spec's data model:
`MicroFrontendEntry` has a name, a mount selector and a remote URL. -/
structure MicroFrontendEntry where
  name : String
  mountSelector : String
  remoteUrl : String
deriving DecidableEq

/-- The registry loaded at startup.  Field names follow the accessors used
in `app.js`: `MFElist.template` (the template object key) and
`MFElist.templatesBucket` (the bucket), plus the ordered micro-frontend
list and opaque downstream-service identifiers. -/
structure Registry where
  mfes : List MicroFrontendEntry
  template : String
  templatesBucket : String
  downstream : List String
deriving DecidableEq

/-- The process-wide cached state: the two module-level variables
`let MFElist, catalogTemplate` of `app.js` (line 9).  `none` models an
unassigned (undefined) variable before startup completes. -/
structure ProcessCache where
  MFElist : Option Registry
  catalogTemplate : Option String
deriving DecidableEq

/-- The raw HTTP response write channel (`reply.raw`): the head written by
`writeHead`, the chunks written so far, and whether `end()` was called. -/
structure RawReply where
  headStatus : Option Nat
  headContentType : Option String
  written : List String
  ended : Bool
deriving DecidableEq

/-- A fresh, untouched write channel. -/
def emptyRaw : RawReply := ⟨none, none, [], false⟩

/-- Events emitted by a readable stream: `data` chunks followed by the
end-of-stream event. -/
inductive StreamEvent
  | data (chunk : String)
  | eos
deriving DecidableEq

/-- `Readable.from(xs)` over an in-memory list: it deterministically emits
one `data` event per element, then the end event; an in-memory iterable
source cannot fail. -/
def readableFrom (xs : List String) : List StreamEvent :=
  xs.map StreamEvent.data ++ [StreamEvent.eos]

/-- The two listeners `responseStream` registers (app.js lines 17-23):
on `data`, write the chunk to the raw reply; on end, close the channel. -/
def handleStreamEvent (r : RawReply) (ev : StreamEvent) : RawReply :=
  match ev with
  | StreamEvent.data chunk => { r with written := r.written ++ [chunk] }
  | StreamEvent.eos => { r with ended := true }

/-- `responseStream(str, code, reply)` (app.js lines 11-25): write the head
with the given status and content-type `text/html`, then pipe the events of
`Readable.from([str])` through the two listeners. -/
def responseStream (str : String) (code : Nat) (reply : RawReply) : RawReply :=
  (readableFrom [str]).foldl handleStreamEvent
    { reply with headStatus := some code, headContentType := some "text/html" }

/-- JSON payloads sent with `reply.code(c).send(obj)`, modelled structurally:
the health object with a `healthy` boolean and the greeting object with a
`message` string. -/
inductive Payload
  | healthJson (healthy : Bool)
  | messageJson (message : String)
deriving DecidableEq

/-- What a completed handler did to the reply: either it streamed a body
with a status code via `responseStream`, or it sent a JSON payload via
`reply.code(..).send(..)`. -/
inductive Sent
  | stream (body : String) (code : Nat)
  | json (code : Nat) (payload : Payload)
deriving DecidableEq

/-- The observable response: a streamed raw reply, or a sent JSON reply. -/
inductive Reply
  | streamed (raw : RawReply)
  | jsonSent (code : Nat) (payload : Payload)
deriving DecidableEq

/-- Modelled from the spec: `templates/staticPages.js` is not in the
repository snapshot; per the route table the not-found handler serves a
fixed not-found page body. -/
def notFoundPage : String := "<html><body>Not Found</body></html>"

/-- Modelled from the spec: `templates/staticPages.js` is not in the
repository snapshot; per the error-handling design the error handler serves
a fixed error page body, distinct from any diagnostic text. -/
def serverErrorPage : String := "<html><body>Internal Server Error</body></html>"

/-- A fragment reference for one entry: a script tag tied to the entry's
mount selector and remote URL. -/
def fragmentRef (e : MicroFrontendEntry) : String :=
  "<script data-mount=\"" ++ e.mountSelector ++ "\" src=\"" ++ e.remoteUrl ++ "\"></script>"

/-- Injection of one entry's fragment reference into the page, using the
fixed append policy the spec allows (the reference carries the mount
selector, so mounting happens at the associated position). -/
def injectEntry (t : String) (e : MicroFrontendEntry) : String :=
  t ++ fragmentRef e

/-- Modelled from the spec: `utils/html-transformer.js` is not in the
repository snapshot.  Per the transformer contract, `transform(template,
registry) -> html` is a pure, deterministic function that injects one
fragment reference per registry entry, in registry order, and fails with
`TemplateMalformed` when the template cannot be parsed at all (modelled
minimally as the empty blob).  Both parameters are `Option` because the
call site in `app.js` (line 51) passes only one argument, leaving the
registry parameter undefined; an undefined template is unparseable. -/
def transformTemplate (template : Option String) (registry : Option Registry) :
    Except String String :=
  match template with
  | none => Except.error "TemplateMalformed"
  | some t =>
    if t.isEmpty then Except.error "TemplateMalformed"
    else
      Except.ok ((match registry with
        | none => []
        | some r => r.mfes).foldl injectEntry t)

/-- The argument list of the transformer invocation in the
`/productdetails` handler (app.js line 51): `transformTemplate(catalogTemplate)`
passes the cached template as the single argument, so the registry
parameter receives the undefined value. -/
def productdetailsArgs (cache : ProcessCache) : Option String × Option Registry :=
  (cache.catalogTemplate, none)

/-- The `/productdetails` handler (app.js lines 49-57): invoke the
transformer on its recorded arguments; on success stream the composed page
with status 200; on failure log and rethrow, so the error escapes to the
gateway's error handler. -/
def productdetailsHandler (cache : ProcessCache) : Except String Sent :=
  match transformTemplate (productdetailsArgs cache).1 (productdetailsArgs cache).2 with
  | Except.ok page => Except.ok (Sent.stream page 200)
  | Except.error err => Except.error err

/-- The `/hello` handler (app.js lines 27-31): always sends the greeting
JSON with status 200. -/
def helloHandler (_cache : ProcessCache) : Except String Sent :=
  Except.ok (Sent.json 200 (Payload.messageJson "Welcome to the Micro-Frontends in AWS example"))

/-- The `/error` handler (app.js lines 41-43): always throws. -/
def errorRouteHandler (_cache : ProcessCache) : Except String Sent :=
  Except.error "Error"

/-- The `/health` handler (app.js lines 45-47): always sends the fixed
healthy payload with status 200, without consulting the cache. -/
def healthHandler (_cache : ProcessCache) : Except String Sent :=
  Except.ok (Sent.json 200 (Payload.healthJson true))

/-- The fastify route table of `app.js`: the four registered GET routes;
any other path has no registered handler. -/
def route (path : String) : Option (ProcessCache → Except String Sent) :=
  if path = "/hello" then some helloHandler
  else if path = "/error" then some errorRouteHandler
  else if path = "/health" then some healthHandler
  else if path = "/productdetails" then some productdetailsHandler
  else none

/-- Startup-phase I/O a request handler could in principle perform; the
handlers of `app.js` perform none. -/
inductive IOEvent
  | configRead
  | s3Fetch (a1 : String) (a2 : String)
deriving DecidableEq

/-- Materialise a handler's action as the observable response: streaming
goes through `responseStream` over a fresh raw reply; JSON is sent by
fastify directly. -/
def realize (s : Sent) : Reply :=
  match s with
  | Sent.stream body code => Reply.streamed (responseStream body code emptyRaw)
  | Sent.json code p => Reply.jsonSent code p

/-- One request through the gateway: dispatch on the route table; a missing
route goes to the not-found handler (app.js lines 37-39, fixed 404 page); a
handler that throws goes to the error handler (app.js lines 33-35, fixed
500 page).  The result also carries the cache state after the request and
the registry/template-store I/O performed by the request, read off the
handler bodies: no handler assigns `MFElist` or `catalogTemplate` and none
calls `init` or `loadFromS3`. -/
def runRequest (cache : ProcessCache) (path : String) :
    Reply × ProcessCache × List IOEvent :=
  match route path with
  | some h =>
    match h cache with
    | Except.ok s => (realize s, cache, [])
    | Except.error _ => (realize (Sent.stream serverErrorPage 500), cache, [])
  | none => (realize (Sent.stream notFoundPage 404), cache, [])

/-- The response observed by the client for one request. -/
def finalReply (cache : ProcessCache) (path : String) : Reply :=
  (runRequest cache path).1

/-- Observable steps of the startup sequencer `start` (app.js lines 59-71):
the registry load, the two cache-variable assignments, the template fetch
with its argument list, opening the listening socket, and the failure path
(log, then exit). -/
inductive StartEvent
  | loadRegistry
  | setMFElist (r : Registry)
  | fetchTemplate (a1 : String) (a2 : String)
  | setCatalogTemplate (t : String)
  | listen (port : Nat)
  | logError
  | exitProcess (code : Nat)
deriving DecidableEq

/-- Outcome of running the startup sequencer: its event trace, the cache
it leaves behind, and the process exit code (`none` when the process keeps
running and serves requests). -/
structure StartResult where
  trace : List StartEvent
  cache : ProcessCache
  exitCode : Option Nat
deriving DecidableEq

/-- The startup sequencer `start` (app.js lines 59-71), parameterised by
the outcome of `init()` and by the `loadFromS3` collaborator:
`MFElist = await init()`, then
`catalogTemplate = await loadFromS3(MFElist.template, MFElist.templatesBucket)`,
then `fastify.listen`; any failure is caught, logged, and the process exits
with status 1 without ever reaching `listen`. -/
def start (initResult : Except String Registry)
    (s3 : String → String → Except String String) (port : Nat) : StartResult :=
  match initResult with
  | Except.error _ =>
    ⟨[StartEvent.loadRegistry, StartEvent.logError, StartEvent.exitProcess 1],
     ⟨none, none⟩, some 1⟩
  | Except.ok reg =>
    match s3 reg.template reg.templatesBucket with
    | Except.error _ =>
      ⟨[StartEvent.loadRegistry, StartEvent.setMFElist reg,
        StartEvent.fetchTemplate reg.template reg.templatesBucket,
        StartEvent.logError, StartEvent.exitProcess 1],
       ⟨some reg, none⟩, some 1⟩
    | Except.ok t =>
      ⟨[StartEvent.loadRegistry, StartEvent.setMFElist reg,
        StartEvent.fetchTemplate reg.template reg.templatesBucket,
        StartEvent.setCatalogTemplate t, StartEvent.listen port],
       ⟨some reg, some t⟩, none⟩

/-- Number of writes to the cached registry variable in a startup trace. -/
def countSetMFElist (tr : List StartEvent) : Nat :=
  tr.countP (fun ev => match ev with
    | StartEvent.setMFElist _ => true
    | _ => false)

/-- Number of writes to the cached template variable in a startup trace. -/
def countSetCatalogTemplate (tr : List StartEvent) : Nat :=
  tr.countP (fun ev => match ev with
    | StartEvent.setCatalogTemplate _ => true
    | _ => false)

/-- Claim C7: every GET /health request yields status 200 with the fixed
healthy payload; the handler neither reads nor writes the cache, performs
no I/O, and never fails — the response is identical in every cache state,
ready or not. -/
theorem health_fixed_response (cache cache2 : ProcessCache) :
    runRequest cache "/health" =
      (Reply.jsonSent 200 (Payload.healthJson true), cache, []) ∧
    finalReply cache "/health" = finalReply cache2 "/health" :=
  ⟨rfl, rfl⟩

/-- Claim C9: on every exit path of the streaming response delivery routine
the write channel is closed: `responseStream` always ends the raw reply,
after writing exactly the full body and the head with the given status and
content-type text/html.  The in-memory single-chunk stream it pipes from
deterministically emits its chunk and then the end event, so no execution
leaves the channel open. -/
theorem responseStream_closes_channel (str : String) (code : Nat) (reply : RawReply) :
    (responseStream str code reply).ended = true ∧
    (responseStream str code reply).written = reply.written ++ [str] ∧
    (responseStream str code reply).headStatus = some code ∧
    (responseStream str code reply).headContentType = some "text/html" := by
  refine ⟨?_, ?_, ?_, ?_⟩ <;>
    simp [responseStream, readableFrom, handleStreamEvent]

/-- Claim C8: every request whose path matches no registered route receives
exactly status 404 with the fixed not-found page body as the only written
chunk, and the channel is closed. -/
theorem unmatched_path_not_found (cache : ProcessCache) (path : String)
    (h : route path = none) :
    finalReply cache path =
      Reply.streamed ⟨some 404, some "text/html", [notFoundPage], true⟩ := by
  simp [finalReply, runRequest, h, realize, responseStream, readableFrom,
    handleStreamEvent, emptyRaw]

/-- Claim C8 witness: GET /does-not-exist matches no route and receives the
fixed 404 not-found page. -/
theorem unmatched_path_not_found_witness :
    route "/does-not-exist" = none ∧
    finalReply ⟨none, none⟩ "/does-not-exist" =
      Reply.streamed ⟨some 404, some "text/html", [notFoundPage], true⟩ :=
  ⟨rfl, unmatched_path_not_found ⟨none, none⟩ "/does-not-exist" rfl⟩

/-- Claim C10: the server registers a GET /error route whose handler always
throws, so a request to /error receives the fixed 500 error page rather
than the 404 not-found response an unregistered path would receive. -/
theorem error_route_registered (cache : ProcessCache) :
    route "/error" = some errorRouteHandler ∧
    finalReply cache "/error" =
      Reply.streamed ⟨some 500, some "text/html", [serverErrorPage], true⟩ ∧
    finalReply cache "/error" ≠
      Reply.streamed ⟨some 404, some "text/html", [notFoundPage], true⟩ := by
  refine ⟨rfl, rfl, ?_⟩
  have h : finalReply cache "/error" =
      Reply.streamed ⟨some 500, some "text/html", [serverErrorPage], true⟩ := rfl
  rw [h]
  decide

/-- Claim C2: whenever the routed handler throws, the gateway's error
handler answers with status 500 and the fixed error page body as the only
written chunk — independent of the thrown message, so neither stale nor
partial composed output nor raw error text ever reaches the client — and
the channel is closed. -/
theorem thrown_error_fixed_500 (cache : ProcessCache) (path msg : String)
    (h : ProcessCache → Except String Sent)
    (hroute : route path = some h) (hthrow : h cache = Except.error msg) :
    finalReply cache path =
      Reply.streamed ⟨some 500, some "text/html", [serverErrorPage], true⟩ := by
  simp [finalReply, runRequest, hroute, hthrow, realize, responseStream,
    readableFrom, handleStreamEvent, emptyRaw]

/-- Claim C2 witness: a transformer failure while composing /productdetails
(here: the unparseable empty template) makes the handler throw, and the
client receives the fixed 500 error page. -/
theorem thrown_error_fixed_500_witness :
    route "/productdetails" = some productdetailsHandler ∧
    productdetailsHandler ⟨none, some ""⟩ = Except.error "TemplateMalformed" ∧
    finalReply ⟨none, some ""⟩ "/productdetails" =
      Reply.streamed ⟨some 500, some "text/html", [serverErrorPage], true⟩ :=
  ⟨rfl, rfl,
    thrown_error_fixed_500 ⟨none, some ""⟩ "/productdetails" "TemplateMalformed"
      productdetailsHandler rfl rfl⟩

/-- Claim C1 counterexample: the /productdetails handler does not invoke
the transformer on the cached (registry, template) pair.  At the call site
the registry argument is the undefined value, not the cached registry, and
two ready caches holding the same template but different registries
produce byte-identical responses. -/
theorem productdetails_ignores_registry_counterexample :
    (productdetailsArgs
      ⟨some ⟨[⟨"reviews", "#reviews", "https://mfe.example/reviews.js"⟩],
          "catalogTemplate.html", "mfe-bucket", ["arn-a"]⟩,
        some "<html><body></body></html>"⟩).2 ≠
      some ⟨[⟨"reviews", "#reviews", "https://mfe.example/reviews.js"⟩],
        "catalogTemplate.html", "mfe-bucket", ["arn-a"]⟩ ∧
    (⟨[⟨"reviews", "#reviews", "https://mfe.example/reviews.js"⟩],
        "catalogTemplate.html", "mfe-bucket", ["arn-a"]⟩ : Registry) ≠
      ⟨[], "catalogTemplate.html", "mfe-bucket", ["arn-a"]⟩ ∧
    finalReply
      ⟨some ⟨[⟨"reviews", "#reviews", "https://mfe.example/reviews.js"⟩],
          "catalogTemplate.html", "mfe-bucket", ["arn-a"]⟩,
        some "<html><body></body></html>"⟩ "/productdetails" =
    finalReply
      ⟨some ⟨[], "catalogTemplate.html", "mfe-bucket", ["arn-a"]⟩,
        some "<html><body></body></html>"⟩ "/productdetails" := by
  refine ⟨by simp [productdetailsArgs], by decide, rfl⟩

/-- Claim C1 (amended): after the process cache is ready, the
/productdetails handler invokes the transformer on the cached template
alone (the registry parameter is left undefined) and, on success, streams
the composed HTML with status 200 and content-type text/html, closing the
channel. -/
theorem productdetails_streams_transformed_template (cache : ProcessCache)
    (t page : String) (ht : cache.catalogTemplate = some t)
    (hok : transformTemplate (some t) none = Except.ok page) :
    productdetailsArgs cache = (some t, none) ∧
    finalReply cache "/productdetails" =
      Reply.streamed ⟨some 200, some "text/html", [page], true⟩ := by
  have hroute : route "/productdetails" = some productdetailsHandler := rfl
  constructor
  · simp [productdetailsArgs, ht]
  · simp [finalReply, runRequest, hroute, productdetailsHandler,
      productdetailsArgs, ht, hok, realize, responseStream, readableFrom,
      handleStreamEvent, emptyRaw]

/-- Claim C1 witness: with a ready cache holding the template body
written below, the composed page is streamed with status 200 and
content-type text/html. -/
theorem productdetails_streams_transformed_template_witness :
    (⟨some ⟨[], "catalogTemplate.html", "mfe-bucket", []⟩,
        some "<p>hi</p>"⟩ : ProcessCache).catalogTemplate = some "<p>hi</p>" ∧
    transformTemplate (some "<p>hi</p>") none = Except.ok "<p>hi</p>" ∧
    (productdetailsArgs
        ⟨some ⟨[], "catalogTemplate.html", "mfe-bucket", []⟩, some "<p>hi</p>"⟩ =
      (some "<p>hi</p>", none) ∧
    finalReply
        ⟨some ⟨[], "catalogTemplate.html", "mfe-bucket", []⟩, some "<p>hi</p>"⟩
        "/productdetails" =
      Reply.streamed ⟨some 200, some "text/html", ["<p>hi</p>"], true⟩) :=
  ⟨rfl, rfl,
    productdetails_streams_transformed_template
      ⟨some ⟨[], "catalogTemplate.html", "mfe-bucket", []⟩, some "<p>hi</p>"⟩
      "<p>hi</p>" "<p>hi</p>" rfl rfl⟩

/-- Claim C3: if any startup step fails — the registry load or the
template fetch — the process exits with status 1 and the listening socket
is never opened, so no request is ever served. -/
theorem startup_failure_exits_without_listen (initResult : Except String Registry)
    (s3 : String → String → Except String String) (port : Nat)
    (hfail : ∀ reg t, ¬(initResult = Except.ok reg ∧
      s3 reg.template reg.templatesBucket = Except.ok t)) :
    (start initResult s3 port).exitCode = some 1 ∧
    ∀ p, StartEvent.listen p ∉ (start initResult s3 port).trace := by
  cases hinit : initResult with
  | error e =>
    refine ⟨rfl, ?_⟩
    intro p
    simp [start]
  | ok reg =>
    cases hs3 : s3 reg.template reg.templatesBucket with
    | error e =>
      refine ⟨by simp [start, hs3], ?_⟩
      intro p
      simp [start, hs3]
    | ok t => exact (hfail reg t ⟨hinit, hs3⟩).elim

/-- Claim C3 witness: with a failing registry load, the process exits with
status 1 and no listen event occurs in the startup trace. -/
theorem startup_failure_exits_without_listen_witness :
    (start (Except.error "ConfigUnavailable")
      (fun _ _ => Except.error "ObjectStoreUnavailable") 3000).exitCode = some 1 ∧
    StartEvent.listen 3000 ∉
      (start (Except.error "ConfigUnavailable")
        (fun _ _ => Except.error "ObjectStoreUnavailable") 3000).trace :=
  ⟨(startup_failure_exits_without_listen (Except.error "ConfigUnavailable")
      (fun _ _ => Except.error "ObjectStoreUnavailable") 3000
      (fun reg t h => by exact absurd h.1 (by simp))).1,
   (startup_failure_exits_without_listen (Except.error "ConfigUnavailable")
      (fun _ _ => Except.error "ObjectStoreUnavailable") 3000
      (fun reg t h => by exact absurd h.1 (by simp))).2 3000⟩

/-- Claim C4 counterexample: on a successful startup the fetch is invoked
with the template key as first argument and the bucket as second —
`loadFromS3(MFElist.template, MFElist.templatesBucket)` — so no fetch
invocation of the form fetch(bucket, key) ever occurs; the trace also
shows the registry cache variable written before the fetch. -/
theorem fetch_argument_order_counterexample :
    (start (Except.ok ⟨[], "templateKey.html", "template-bucket", []⟩)
      (fun _ _ => Except.ok "<html></html>") 3000).trace =
      [StartEvent.loadRegistry,
       StartEvent.setMFElist ⟨[], "templateKey.html", "template-bucket", []⟩,
       StartEvent.fetchTemplate "templateKey.html" "template-bucket",
       StartEvent.setCatalogTemplate "<html></html>",
       StartEvent.listen 3000] ∧
    StartEvent.fetchTemplate "template-bucket" "templateKey.html" ∉
      (start (Except.ok ⟨[], "templateKey.html", "template-bucket", []⟩)
        (fun _ _ => Except.ok "<html></html>") 3000).trace := by
  exact ⟨rfl, by decide⟩

/-- Claim C4 (amended): the startup sequence performs, in order: registry
load, caching of the registry, template fetch invoked as
loadFromS3(registry.template, registry.templatesBucket) — key first, then
bucket — caching of the template, and only then accepting connections. -/
theorem startup_sequence_order (initResult : Except String Registry)
    (s3 : String → String → Except String String) (port : Nat)
    (reg : Registry) (t : String)
    (hinit : initResult = Except.ok reg)
    (hs3 : s3 reg.template reg.templatesBucket = Except.ok t) :
    (start initResult s3 port).trace =
      [StartEvent.loadRegistry, StartEvent.setMFElist reg,
       StartEvent.fetchTemplate reg.template reg.templatesBucket,
       StartEvent.setCatalogTemplate t, StartEvent.listen port] := by
  subst hinit
  simp [start, hs3]

/-- Claim C4 witness: a concrete successful startup produces exactly the
ordered trace. -/
theorem startup_sequence_order_witness :
    (start (Except.ok ⟨[], "catalogTemplate.html", "mfe-bucket", []⟩)
      (fun _ _ => Except.ok "<p>tpl</p>") 3000).trace =
      [StartEvent.loadRegistry,
       StartEvent.setMFElist ⟨[], "catalogTemplate.html", "mfe-bucket", []⟩,
       StartEvent.fetchTemplate "catalogTemplate.html" "mfe-bucket",
       StartEvent.setCatalogTemplate "<p>tpl</p>",
       StartEvent.listen 3000] :=
  startup_sequence_order (Except.ok ⟨[], "catalogTemplate.html", "mfe-bucket", []⟩)
    (fun _ _ => Except.ok "<p>tpl</p>") 3000
    ⟨[], "catalogTemplate.html", "mfe-bucket", []⟩ "<p>tpl</p>" rfl rfl

/-- Claim C5: the cached registry and template are each written exactly
once, by the startup sequencer, on any startup that reaches ready; and no
request handler writes the cache or performs any registry or
template-store I/O — every request leaves the cache untouched with an
empty I/O trace. -/
theorem cache_write_once_requests_readonly (initResult : Except String Registry)
    (s3 : String → String → Except String String) (port : Nat)
    (reg : Registry) (t : String) (cache : ProcessCache) (path : String)
    (hinit : initResult = Except.ok reg)
    (hs3 : s3 reg.template reg.templatesBucket = Except.ok t) :
    countSetMFElist (start initResult s3 port).trace = 1 ∧
    countSetCatalogTemplate (start initResult s3 port).trace = 1 ∧
    (runRequest cache path).2.1 = cache ∧
    (runRequest cache path).2.2 = [] := by
  subst hinit
  refine ⟨?_, ?_, ?_, ?_⟩
  · simp [start, hs3, countSetMFElist]
  · simp [start, hs3, countSetCatalogTemplate]
  · unfold runRequest
    rcases route path with _ | h
    · rfl
    · rcases hh : h cache with msg | s <;> simp [hh]
  · unfold runRequest
    rcases route path with _ | h
    · rfl
    · rcases hh : h cache with msg | s <;> simp [hh]

/-- Claim C5 witness: a concrete successful startup writes each cache
variable once, and a concrete request leaves the cache untouched with no
I/O. -/
theorem cache_write_once_requests_readonly_witness :
    countSetMFElist (start (Except.ok ⟨[], "catalogTemplate.html", "mfe-bucket", []⟩)
      (fun _ _ => Except.ok "<p>tpl</p>") 3000).trace = 1 ∧
    countSetCatalogTemplate (start (Except.ok ⟨[], "catalogTemplate.html", "mfe-bucket", []⟩)
      (fun _ _ => Except.ok "<p>tpl</p>") 3000).trace = 1 ∧
    (runRequest ⟨some ⟨[], "catalogTemplate.html", "mfe-bucket", []⟩, some "<p>tpl</p>"⟩
      "/productdetails").2.1 =
      ⟨some ⟨[], "catalogTemplate.html", "mfe-bucket", []⟩, some "<p>tpl</p>"⟩ ∧
    (runRequest ⟨some ⟨[], "catalogTemplate.html", "mfe-bucket", []⟩, some "<p>tpl</p>"⟩
      "/productdetails").2.2 = [] :=
  cache_write_once_requests_readonly
    (Except.ok ⟨[], "catalogTemplate.html", "mfe-bucket", []⟩)
    (fun _ _ => Except.ok "<p>tpl</p>") 3000
    ⟨[], "catalogTemplate.html", "mfe-bucket", []⟩ "<p>tpl</p>"
    ⟨some ⟨[], "catalogTemplate.html", "mfe-bucket", []⟩, some "<p>tpl</p>"⟩
    "/productdetails" rfl rfl

/-- Claim C6: the template transformation is deterministic: two calls on
identical inputs yield byte-identical output, and the output depends only
on the template text and the entry list — registries agreeing on their
entries give identical output whatever their other fields. -/
theorem transform_deterministic (t : String) (r r2 : Registry)
    (hm : r.mfes = r2.mfes) :
    transformTemplate (some t) (some r) = transformTemplate (some t) (some r) ∧
    transformTemplate (some t) (some r) = transformTemplate (some t) (some r2) := by
  refine ⟨rfl, ?_⟩
  simp [transformTemplate, hm]

/-- Claim C6 witness: two registries with the same entry list but
different downstream identifiers transform the concrete template below
identically. -/
theorem transform_deterministic_witness :
    (⟨[⟨"reviews", "#reviews", "https://mfe.example/reviews.js"⟩],
        "catalogTemplate.html", "mfe-bucket", ["arn-a"]⟩ : Registry).mfes =
      (⟨[⟨"reviews", "#reviews", "https://mfe.example/reviews.js"⟩],
        "catalogTemplate.html", "mfe-bucket", ["arn-b"]⟩ : Registry).mfes ∧
    (transformTemplate (some "<div id=\"reviews\"></div>")
        (some ⟨[⟨"reviews", "#reviews", "https://mfe.example/reviews.js"⟩],
          "catalogTemplate.html", "mfe-bucket", ["arn-a"]⟩) =
      transformTemplate (some "<div id=\"reviews\"></div>")
        (some ⟨[⟨"reviews", "#reviews", "https://mfe.example/reviews.js"⟩],
          "catalogTemplate.html", "mfe-bucket", ["arn-a"]⟩) ∧
    transformTemplate (some "<div id=\"reviews\"></div>")
        (some ⟨[⟨"reviews", "#reviews", "https://mfe.example/reviews.js"⟩],
          "catalogTemplate.html", "mfe-bucket", ["arn-a"]⟩) =
      transformTemplate (some "<div id=\"reviews\"></div>")
        (some ⟨[⟨"reviews", "#reviews", "https://mfe.example/reviews.js"⟩],
          "catalogTemplate.html", "mfe-bucket", ["arn-b"]⟩)) :=
  ⟨rfl, transform_deterministic "<div id=\"reviews\"></div>"
    ⟨[⟨"reviews", "#reviews", "https://mfe.example/reviews.js"⟩],
      "catalogTemplate.html", "mfe-bucket", ["arn-a"]⟩
    ⟨[⟨"reviews", "#reviews", "https://mfe.example/reviews.js"⟩],
      "catalogTemplate.html", "mfe-bucket", ["arn-b"]⟩ rfl⟩
